import Mathlib

/-!
Verification of the template-python CRUD API repository against its
natural-language specification.

The Python sources are shallowly embedded: pure helpers become Lean
functions, the database is a list of rows, the upload directory is a list
of stored files, and each endpoint handler is a function from the current
state and the request to a result and the next state.  Python integers are
unbounded, so `Nat` is used throughout.  Only the ASCII fragment of
Python's string methods is modelled; every concrete string the claims
touch is ASCII.
-/

namespace TemplatePython

/-! ### Python string primitives (ASCII fragment) -/

/-- ASCII whitespace characters removed by Python's str.strip with no
argument. -/
def pyIsSpace (c : Char) : Bool :=
  c == ' ' || c == '\t' || c == '\n' || c == '\r' || c == '\x0b' || c == '\x0c'

/-- Python str.strip with no argument: drop leading and trailing
whitespace. -/
def pyStrip (s : String) : String :=
  String.mk
    (((s.data.dropWhile pyIsSpace).reverse.dropWhile pyIsSpace).reverse)

/-- Python str.lower restricted to ASCII (Char.toLower lowercases exactly
the characters A-Z, which matches Python on the ASCII range). -/
def pyLower (s : String) : String :=
  String.mk (s.data.map Char.toLower)

/-- Helper for Python str.title: the flag records whether the previous
character was a letter (a cased character, in the ASCII fragment). -/
def pyTitleAux : Bool → List Char → List Char
  | _, [] => []
  | prevCased, c :: cs =>
    if c.isAlpha then
      (if prevCased then c.toLower else c.toUpper) :: pyTitleAux true cs
    else
      c :: pyTitleAux false cs

/-- Python str.title restricted to ASCII: uppercase each letter that
follows a non-letter, lowercase every other letter. -/
def pyTitle (s : String) : String :=
  String.mk (pyTitleAux false s.data)

/-! ### JSON serialization (CPython json.dumps on a list of strings,
default arguments: ensure_ascii=True, separator ", ") -/

/-- Lower-case hexadecimal digit. -/
def toHexDigit (n : Nat) : Char :=
  if n < 10 then Char.ofNat (48 + n) else Char.ofNat (87 + n)

/-- Four lower-case hexadecimal digits, as in a JSON \uXXXX escape. -/
def toHex4 (n : Nat) : String :=
  String.mk
    [toHexDigit (n / 4096 % 16), toHexDigit (n / 256 % 16),
      toHexDigit (n / 16 % 16), toHexDigit (n % 16)]

/-- Escape one character the way CPython's json.dumps does with its
default ensure_ascii=True: the two-character escapes for quote, backslash
and common control characters, \uXXXX for other control and non-ASCII
characters, and a surrogate pair for code points above 0xFFFF. -/
def jsonEscapeChar (c : Char) : String :=
  if c == '"' then "\\\""
  else if c == '\\' then "\\\\"
  else if c == '\n' then "\\n"
  else if c == '\r' then "\\r"
  else if c == '\t' then "\\t"
  else if c.toNat == 8 then "\\b"
  else if c.toNat == 12 then "\\f"
  else if c.toNat < 32 then "\\u" ++ toHex4 c.toNat
  else if c.toNat < 127 then String.mk [c]
  else if c.toNat < 65536 then "\\u" ++ toHex4 c.toNat
  else
    let v := c.toNat - 65536
    "\\u" ++ toHex4 (55296 + v / 1024) ++ "\\u" ++ toHex4 (56320 + v % 1024)

/-- A JSON string literal for s. -/
def jsonQuote (s : String) : String :=
  "\"" ++ String.join (s.data.map jsonEscapeChar) ++ "\""

/-- Model of json.dumps applied to a Python list of strings (the default
item separator is a comma followed by a space). -/
def jsonDumpsList (l : List String) : String :=
  "[" ++ String.intercalate ", " (l.map jsonQuote) ++ "]"

/-! ### src/utils/security.py -/

/-- The static weak-password blacklist of is_password_strong (a Python
set literal; only membership is used, so a list is an adequate model). -/
def weak_passwords : List String :=
  ["password", "123456", "123456789", "qwerty", "abc123",
    "password123", "admin", "letmein", "welcome", "monkey"]

/-- is_password_strong: collect the length violations and the blacklist
violation, in source order, and report validity as issues being empty. -/
def is_password_strong (password : String) : Bool × List String :=
  let issues : List String :=
    (if password.length < 6 then
      ["Password must be at least 6 characters long"] else []) ++
    (if password.length > 100 then
      ["Password must be no more than 100 characters long"] else []) ++
    (if weak_passwords.contains (pyLower password) then
      ["Password is too common"] else [])
  (issues.length == 0, issues)

/-! ### src/utils/pagination.py -/

/-- PaginatedResponse (pydantic model of pagination.py). -/
structure PaginatedResponse (T : Type) where
  items : List T
  total : Nat
  page : Nat
  size : Nat
  pages : Nat
  has_next : Bool
  has_prev : Bool
deriving Repr, DecidableEq

/-- PaginatedResponse.create: pages is (total + size - 1) // size when
total > 0 and 0 otherwise; has_next is page < pages; has_prev is
page > 1. -/
def PaginatedResponse.create {T : Type} (items : List T)
    (total page size : Nat) : PaginatedResponse T :=
  let pages := if total > 0 then (total + size - 1) / size else 0
  { items := items, total := total, page := page, size := size,
    pages := pages, has_next := decide (page < pages),
    has_prev := decide (page > 1) }

/-- Rounding-up division over Nat coincides with the real ceiling of the
exact quotient. -/
theorem add_pred_div_eq_ceil (a b : Nat) (hb : 0 < b) :
    (a + b - 1) / b = ⌈(a : ℚ) / (b : ℚ)⌉₊ := by
  have hbq : (0 : ℚ) < (b : ℚ) := by exact_mod_cast hb
  apply le_antisymm
  · rw [Nat.div_le_iff_le_mul_add_pred hb]
    have h2 := Nat.le_ceil ((a : ℚ) / (b : ℚ))
    have h3 := mul_le_mul_of_nonneg_right h2 (le_of_lt hbq)
    rw [div_mul_cancel₀ _ (ne_of_gt hbq)] at h3
    have h4 : a ≤ ⌈(a : ℚ) / (b : ℚ)⌉₊ * b := by exact_mod_cast h3
    have h5 : a ≤ b * ⌈(a : ℚ) / (b : ℚ)⌉₊ := by rwa [mul_comm] at h4
    generalize b * ⌈(a : ℚ) / (b : ℚ)⌉₊ = k at h5 ⊢
    omega
  · rw [Nat.ceil_le, div_le_iff₀ hbq]
    have h6 : a ≤ b * ((a + b - 1) / b) := by
      have h7 := Nat.div_add_mod (a + b - 1) b
      have h8 := Nat.mod_lt (a + b - 1) hb
      generalize b * ((a + b - 1) / b) = k at h7 ⊢
      omega
    calc (a : ℚ) ≤ ((b * ((a + b - 1) / b) : ℕ) : ℚ) := by exact_mod_cast h6
      _ = (((a + b - 1) / b : ℕ) : ℚ) * (b : ℚ) := by push_cast; ring

/-- C1: for valid pagination input (page at least 1, size between 1 and
1000, any total), PaginatedResponse.create computes pages as the ceiling
of total / size when total > 0 and as 0 when total = 0, has_next exactly
when page < pages, and has_prev exactly when page > 1. -/
theorem paginated_response_create_spec {T : Type} (items : List T)
    (total page size : Nat) (_hpage : 1 ≤ page) (hsize : 1 ≤ size)
    (_hsize2 : size ≤ 1000) :
    (0 < total →
      (PaginatedResponse.create items total page size).pages =
        ⌈(total : ℚ) / (size : ℚ)⌉₊) ∧
    (total = 0 → (PaginatedResponse.create items total page size).pages = 0) ∧
    ((PaginatedResponse.create items total page size).has_next = true ↔
      page < (PaginatedResponse.create items total page size).pages) ∧
    ((PaginatedResponse.create items total page size).has_prev = true ↔
      1 < page) := by
  refine ⟨?_, ?_, ?_, ?_⟩
  · intro ht
    simp only [PaginatedResponse.create, if_pos ht]
    exact add_pred_div_eq_ceil total size hsize
  · intro ht
    simp [PaginatedResponse.create, ht]
  · simp [PaginatedResponse.create]
  · simp [PaginatedResponse.create]

/-- Witness for C1 at items = [0], total = 5, page = 2, size = 2. -/
theorem paginated_response_create_spec_witness :
    (PaginatedResponse.create ([0] : List Nat) 5 2 2).pages =
      ⌈(5 : ℚ) / (2 : ℚ)⌉₊ ∧
    ((PaginatedResponse.create ([0] : List Nat) 5 2 2).has_next = true ↔
      2 < (PaginatedResponse.create ([0] : List Nat) 5 2 2).pages) ∧
    ((PaginatedResponse.create ([0] : List Nat) 5 2 2).has_prev = true ↔
      1 < 2) := by
  have h := paginated_response_create_spec ([0] : List Nat) 5 2 2
    (by norm_num) (by norm_num) (by norm_num)
  have h5 : ((5 : Nat) : ℚ) = (5 : ℚ) := by norm_num
  have h2 : ((2 : Nat) : ℚ) = (2 : ℚ) := by norm_num
  refine ⟨?_, h.2.2.1, h.2.2.2⟩
  rw [← h5, ← h2]
  exact h.1 (by norm_num)

/-- C10: the blacklist rule of is_password_strong compares the lowercased
password against the blacklist, so the too-common issue is reported for
exactly the strings whose lowercase form is blacklisted (in particular
for every case variant of a blacklisted word); and the length bounds are
inclusive: a password of length exactly 6 or exactly 100 triggers
neither length issue. -/
theorem is_password_strong_spec (p : String) :
    ("Password is too common" ∈ (is_password_strong p).2 ↔
      pyLower p ∈ weak_passwords) ∧
    (p.length = 6 ∨ p.length = 100 →
      "Password must be at least 6 characters long" ∉
          (is_password_strong p).2 ∧
        "Password must be no more than 100 characters long" ∉
          (is_password_strong p).2) := by
  constructor
  · simp only [is_password_strong, List.mem_append]
    constructor
    · intro h
      rcases h with (h | h) | h
      · split at h <;> simp_all
      · split at h <;> simp_all
      · by_cases hc : weak_passwords.contains (pyLower p)
        · exact List.elem_iff.mp hc
        · simp [hc] at h
          exact h
    · intro h
      have hc : weak_passwords.contains (pyLower p) = true :=
        List.elem_iff.mpr h
      right
      simp [hc]
      exact h
  · intro hl
    have h6 : ¬ p.length < 6 := by omega
    have h100 : ¬ p.length > 100 := by omega
    simp [is_password_strong, h6, h100]

/-- Witness for C10: the all-caps variant of a blacklisted word is
reported as too common, and a password of length exactly 6 triggers
neither length issue. -/
theorem is_password_strong_spec_witness :
    "Password is too common" ∈ (is_password_strong "PASSWORD").2 ∧
    "Password must be at least 6 characters long" ∉
        (is_password_strong "abcxyz").2 ∧
      "Password must be no more than 100 characters long" ∉
        (is_password_strong "abcxyz").2 := by
  refine ⟨?_, ?_⟩
  · exact (is_password_strong_spec "PASSWORD").1.mpr (by decide)
  · exact (is_password_strong_spec "abcxyz").2 (Or.inl (by decide))

/-! ### src/models/hero.py

The Hero row (table=True SQLModel).  The abilities column is a JSON
string column; datetimes are modelled as Nat timestamps. -/

structure Hero where
  id : Option Nat
  created_at : Nat
  updated_at : Option Nat
  name : String
  secret_name : String
  age : Option Nat
  description : Option String
  power_level : Nat
  is_active : Bool
  avatar_url : Option String
  team : Option String
  abilities : Option String
  weakness : Option String
deriving Repr, DecidableEq

/-- HeroCreate (request schema; abilities arrives as a list). -/
structure HeroCreate where
  name : String
  secret_name : String
  age : Option Nat := none
  description : Option String := none
  power_level : Nat := 1
  is_active : Bool := true
  avatar_url : Option String := none
  team : Option String := none
  abilities : Option (List String) := none
  weakness : Option String := none
deriving Repr, DecidableEq

/-- The name field validator declared on the Hero table model:
reject an all-whitespace name, otherwise strip and title-case it. -/
def Hero.validate_name (v : String) : Except String String :=
  if pyStrip v = "" then Except.error "Hero name cannot be empty"
  else Except.ok (pyTitle (pyStrip v))

/-- The secret_name field validator declared on the Hero table model. -/
def Hero.validate_secret_name (v : String) : Except String String :=
  if pyStrip v = "" then Except.error "Secret name cannot be empty"
  else Except.ok (pyTitle (pyStrip v))

/-- HeroResponse (response schema): abilities is declared as an optional
list of strings. -/
structure HeroResponse where
  id : Nat
  created_at : Nat
  updated_at : Option Nat
  name : String
  secret_name : String
  age : Option Nat
  description : Option String
  power_level : Nat
  is_active : Bool
  avatar_url : Option String
  team : Option String
  abilities : Option (List String)
  weakness : Option String
deriving Repr, DecidableEq

/-- HeroResponse.model_validate on a Hero row (pydantic v2,
from_attributes=True).  Python-mode validation does not parse a JSON
string into a list: a str value for the field declared
list[str] | None fails both members of the union, so any row whose
abilities column is a non-null string is rejected with a
ValidationError.  No validator in the repository ever deserializes the
column. -/
def heroResponseValidate (h : Hero) : Except String HeroResponse :=
  match h.id with
  | none => Except.error "id: Input should be a valid integer"
  | some i =>
    match h.abilities with
    | none =>
      Except.ok
        { id := i, created_at := h.created_at, updated_at := h.updated_at,
          name := h.name, secret_name := h.secret_name, age := h.age,
          description := h.description, power_level := h.power_level,
          is_active := h.is_active, avatar_url := h.avatar_url,
          team := h.team, abilities := none, weakness := h.weakness }
    | some _ => Except.error "abilities: Input should be a valid list"

/-- Result of a handler: a 2xx payload or an HTTPException status
(unhandled exceptions surface as status 500). -/
inductive ApiResult (α : Type) where
  | ok (data : α)
  | httpError (status : Nat)
deriving Repr, DecidableEq

/-! ### src/api/v1/endpoints/heroes.py — create_hero and get_hero -/

/-- The abilities column value computed by create_hero: the Python guard
`if hero_dict.get("abilities")` is truthy only for a non-empty list,
which is then serialized with json.dumps.  (A submitted empty list would
be left as a raw Python list and crash at commit time in the database
driver; that degenerate case is handled below as the 500 it produces and
never stores a row.) -/
def abilitiesColumn (a : Option (List String)) : Option String :=
  match a with
  | none => none
  | some l => some (jsonDumpsList l)

/-- create_hero.  Duplicate-name check (exact match on the submitted
name), then construction of the Hero row.  Hero is a table=True SQLModel:
sqlmodel_table_construct copies the submitted values verbatim and does
NOT run the field validators, so validate_name / validate_secret_name are
never applied on this path.  After commit, the handler validates the new
row against HeroResponse; a ValidationError there is caught by the
generic `except Exception` branch and surfaces as a 500 (the row is
already committed, so the rollback leaves it in place).  The
autoincrement primary key is modelled as one more than the current row
count. -/
def create_hero (db : List Hero) (now : Nat) (hero : HeroCreate) :
    ApiResult HeroResponse × List Hero :=
  if (db.find? (fun h => h.name == hero.name)).isSome then
    (ApiResult.httpError 409, db)
  else
    match hero.abilities with
    | some [] => (ApiResult.httpError 500, db)
    | _ =>
      let new_hero : Hero :=
        { id := some (db.length + 1), created_at := now, updated_at := none,
          name := hero.name, secret_name := hero.secret_name,
          age := hero.age, description := hero.description,
          power_level := hero.power_level, is_active := hero.is_active,
          avatar_url := hero.avatar_url, team := hero.team,
          abilities := abilitiesColumn hero.abilities,
          weakness := hero.weakness }
      let db' := db ++ [new_hero]
      match heroResponseValidate new_hero with
      | Except.ok resp => (ApiResult.ok resp, db')
      | Except.error _ => (ApiResult.httpError 500, db')

/-- get_hero: fetch by primary key, 404 when absent; an unhandled
ValidationError from HeroResponse.model_validate surfaces as a 500. -/
def get_hero (db : List Hero) (hero_id : Nat) : ApiResult HeroResponse :=
  match db.find? (fun h => h.id == some hero_id) with
  | none => ApiResult.httpError 404
  | some h =>
    match heroResponseValidate h with
    | Except.ok resp => ApiResult.ok resp
    | Except.error _ => ApiResult.httpError 500

/-- C2 (code bug): on the create path the Hero field validators never
run, so the persisted name and secret_name are the raw submitted values,
not their stripped title-cased forms; the validator itself (as declared
on the model) would have produced the title-cased form. -/
theorem create_hero_no_title_case :
    ((create_hero [] 0
        { name := "iron man", secret_name := "tony stark",
          power_level := 50 }).2.map Hero.name = ["iron man"]) ∧
    ((create_hero [] 0
        { name := "iron man", secret_name := "tony stark",
          power_level := 50 }).2.map Hero.secret_name = ["tony stark"]) ∧
    Hero.validate_name "iron man" = Except.ok "Iron Man" ∧
    "iron man" ≠ "Iron Man" := by
  refine ⟨rfl, rfl, rfl, by decide⟩

/-- C3 (code bug): a hero created with a non-empty abilities list is
persisted with the JSON-encoded string, but reading it back fails
response validation (the string is never deserialized), so get_hero
answers 500 instead of returning the submitted list. -/
theorem hero_abilities_roundtrip_broken :
    ((create_hero [] 0
        { name := "Flash", secret_name := "Barry Allen",
          power_level := 50,
          abilities := some ["Speed"] }).2.map Hero.abilities =
      [some "[\"Speed\"]"]) ∧
    get_hero (create_hero [] 0
        { name := "Flash", secret_name := "Barry Allen",
          power_level := 50, abilities := some ["Speed"] }).2 1 =
      ApiResult.httpError 500 ∧
    (create_hero [] 0
        { name := "Flash", secret_name := "Barry Allen",
          power_level := 50, abilities := some ["Speed"] }).1 =
      ApiResult.httpError 500 := by
  refine ⟨by decide, by decide, by decide⟩

/-! ### src/models/user.py and src/api/v1/endpoints/users.py -/

/-- The User row (table=True SQLModel; datetimes as Nat timestamps). -/
structure User where
  id : Option Nat
  created_at : Nat
  updated_at : Option Nat
  username : String
  email : String
  full_name : Option String
  is_active : Bool
  password : String
  password_hash : Option String
  last_login : Option Nat
  avatar_url : Option String
deriving Repr, DecidableEq

/-- UserCreate (request schema; is_active inherits its default from
UserBase). -/
structure UserCreate where
  username : String
  email : String
  full_name : Option String := none
  is_active : Bool := true
  password : String
deriving Repr, DecidableEq

/-- create_user: reject with 409 when an active row already has the
submitted username, then with 409 when an active row already has the
submitted email, then with 422 when the password fails
is_password_strong; otherwise persist the new row (User is a table=True
SQLModel, so its field validators do not run on construction and the
values are stored verbatim; the autoincrement key is modelled as one
more than the current row count). -/
def create_user (db : List User) (now : Nat) (user : UserCreate) :
    ApiResult User × List User :=
  if (db.find? (fun u => u.username == user.username && u.is_active)).isSome then
    (ApiResult.httpError 409, db)
  else if (db.find? (fun u => u.email == user.email && u.is_active)).isSome then
    (ApiResult.httpError 409, db)
  else if (is_password_strong user.password).1 = false then
    (ApiResult.httpError 422, db)
  else
    let new_user : User :=
      { id := some (db.length + 1), created_at := now, updated_at := none,
        username := user.username, email := user.email,
        full_name := user.full_name, is_active := user.is_active,
        password := user.password, password_hash := none,
        last_login := none, avatar_url := none }
    (ApiResult.ok new_user, db ++ [new_user])

/-- C4: whenever some active row already carries the submitted username
or the submitted email, create_user answers 409 and the user table is
left exactly as it was — no second row is inserted. -/
theorem create_user_conflict (db : List User) (now : Nat)
    (user : UserCreate)
    (hconf : ∃ u ∈ db, u.is_active = true ∧
      (u.username = user.username ∨ u.email = user.email)) :
    create_user db now user = (ApiResult.httpError 409, db) := by
  obtain ⟨u, hu, hact, hor⟩ := hconf
  by_cases h1 :
      (db.find? (fun v => v.username == user.username && v.is_active)).isSome
  · simp [create_user, h1]
  · have h2 :
        (db.find? (fun v => v.email == user.email && v.is_active)).isSome := by
      rcases hor with h | h
      · exact absurd
          (List.find?_isSome.mpr ⟨u, hu, by simp [h, hact]⟩) h1
      · exact List.find?_isSome.mpr ⟨u, hu, by simp [h, hact]⟩
    simp [create_user, h1, h2]

/-- Witness for C4: one active stored user, a request reusing its email
under a fresh username. -/
theorem create_user_conflict_witness :
    create_user
        [{ id := some 1, created_at := 0, updated_at := none,
           username := "alice", email := "alice@example.com",
           full_name := none, is_active := true, password := "secret99",
           password_hash := none, last_login := none, avatar_url := none }]
        5
        { username := "bob", email := "alice@example.com",
          password := "secret99" } =
      (ApiResult.httpError 409,
        [{ id := some 1, created_at := 0, updated_at := none,
           username := "alice", email := "alice@example.com",
           full_name := none, is_active := true, password := "secret99",
           password_hash := none, last_login := none, avatar_url := none }]) := by
  exact create_user_conflict _ 5 _
    ⟨_, List.mem_singleton.mpr rfl, rfl, Or.inr rfl⟩

/-! ### src/api/v1/endpoints/heroes.py — get_heroes (list) -/

/-- SQL LIKE pattern matching over lists of characters: a percent sign
matches any (possibly empty) sequence, an underscore matches exactly one
character, anything else matches itself. -/
def likeMatches : List Char → List Char → Bool
  | [], [] => true
  | [], _ :: _ => false
  | '%' :: ps, s =>
    likeMatches ps s ||
      (match s with
        | [] => false
        | _ :: t => likeMatches ('%' :: ps) t)
  | '_' :: ps, s =>
    (match s with
      | [] => false
      | _ :: t => likeMatches ps t)
  | p :: ps, s =>
    (match s with
      | [] => false
      | c :: t => p == c && likeMatches ps t)
termination_by pat s => (pat.length, s.length)

/-- Case-insensitive LIKE (ilike) on a non-null column. -/
def ilikeStr (col : String) (pat : String) : Bool :=
  likeMatches (pyLower pat).data (pyLower col).data

/-- ilike on a nullable column: comparing NULL yields NULL in SQL, so
the row is not selected. -/
def ilikeOpt (col : Option String) (pat : String) : Bool :=
  match col with
  | none => false
  | some s => ilikeStr s pat

/-- The query parameters of GET /heroes/ that shape the filter. -/
structure HeroListParams where
  active_only : Bool := true
  team : Option String := none
  min_power_level : Option Nat := none
  max_power_level : Option Nat := none
  search : Option String := none
deriving Repr, DecidableEq

/-- The predicate accumulated on the data query of get_heroes
(lines 83-102): each truthy parameter appends one where clause, all
AND-combined. -/
def heroesDataQueryPred (p : HeroListParams) (h : Hero) : Bool :=
  (if p.active_only then h.is_active else true) &&
  (match p.team with
    | some t => if t ≠ "" then h.team == some t else true
    | none => true) &&
  (match p.min_power_level with
    | some m => decide (m ≤ h.power_level)
    | none => true) &&
  (match p.max_power_level with
    | some m => decide (h.power_level ≤ m)
    | none => true) &&
  (match p.search with
    | some s =>
      if s ≠ "" then
        ilikeStr h.name ("%" ++ s ++ "%") ||
          ilikeOpt h.description ("%" ++ s ++ "%")
      else true
    | none => true)

/-- The predicate accumulated on the separately-constructed count query
of get_heroes (lines 105-118), written out independently so that the two
duplicated filter blocks of the source stay two definitions here. -/
def heroesCountQueryPred (p : HeroListParams) (h : Hero) : Bool :=
  (if p.active_only then h.is_active else true) &&
  (match p.team with
    | some t => if t ≠ "" then h.team == some t else true
    | none => true) &&
  (match p.min_power_level with
    | some m => decide (m ≤ h.power_level)
    | none => true) &&
  (match p.max_power_level with
    | some m => decide (h.power_level ≤ m)
    | none => true) &&
  (match p.search with
    | some s =>
      if s ≠ "" then
        ilikeStr h.name ("%" ++ s ++ "%") ||
          ilikeOpt h.description ("%" ++ s ++ "%")
      else true
    | none => true)

/-- The total reported by get_heroes: the count query evaluates
func.count(Hero.id), which counts the selected rows whose id is
non-null. -/
def heroesTotal (db : List Hero) (p : HeroListParams) : Nat :=
  (db.filter (fun h => heroesCountQueryPred p h && h.id.isSome)).length

/-- The rows the data query's predicate selects (before the offset/limit
window is applied). -/
def heroesDataRows (db : List Hero) (p : HeroListParams) : List Hero :=
  db.filter (heroesDataQueryPred p)

/-- The two duplicated filter blocks agree on every row. -/
theorem heroes_pred_agree (p : HeroListParams) (h : Hero) :
    heroesCountQueryPred p h = heroesDataQueryPred p h := rfl

/-- C5: for every filter combination, the separately-constructed count
query applies exactly the same predicate as the data query, so on any
table whose rows carry their primary key the reported total equals the
number of rows the data query's predicate selects. -/
theorem heroes_total_matches_data (db : List Hero) (p : HeroListParams)
    (hid : ∀ h ∈ db, h.id.isSome = true) :
    heroesTotal db p = (heroesDataRows db p).length := by
  unfold heroesTotal heroesDataRows
  have hcongr :
      db.filter (fun h => heroesCountQueryPred p h && h.id.isSome) =
        db.filter (heroesDataQueryPred p) := by
    apply List.filter_congr
    intro h hmem
    rw [heroes_pred_agree, hid h hmem, Bool.and_true]
  rw [hcongr]

/-- Witness for C5 on a two-row table with every filter engaged. -/
theorem heroes_total_matches_data_witness :
    heroesTotal
        [{ id := some 1, created_at := 0, updated_at := none,
           name := "Iron Man", secret_name := "Tony Stark", age := some 45,
           description := some "Genius billionaire", power_level := 90,
           is_active := true, avatar_url := none, team := some "Avengers",
           abilities := none, weakness := none },
         { id := some 2, created_at := 0, updated_at := none,
           name := "Batman", secret_name := "Bruce Wayne", age := some 35,
           description := none, power_level := 85, is_active := true,
           avatar_url := none, team := some "Justice League",
           abilities := none, weakness := none }]
        { active_only := true, team := some "Avengers",
          min_power_level := some 50, max_power_level := some 95,
          search := some "iron" } =
      (heroesDataRows
        [{ id := some 1, created_at := 0, updated_at := none,
           name := "Iron Man", secret_name := "Tony Stark", age := some 45,
           description := some "Genius billionaire", power_level := 90,
           is_active := true, avatar_url := none, team := some "Avengers",
           abilities := none, weakness := none },
         { id := some 2, created_at := 0, updated_at := none,
           name := "Batman", secret_name := "Bruce Wayne", age := some 35,
           description := none, power_level := 85, is_active := true,
           avatar_url := none, team := some "Justice League",
           abilities := none, weakness := none }]
        { active_only := true, team := some "Avengers",
          min_power_level := some 50, max_power_level := some 95,
          search := some "iron" }).length := by
  exact heroes_total_matches_data _ _ (by decide)

/-! ### src/api/v1/endpoints/heroes.py — get_power_distribution -/

/-- One histogram bucket of get_power_distribution: a count query over
active heroes whose power_level lies in the inclusive range; like every
func.count(Hero.id) it counts selected rows with a non-null id. -/
def powerBucketCount (db : List Hero) (lo hi : Nat) : Nat :=
  db.countP (fun h =>
    decide (lo ≤ h.power_level) && decide (h.power_level ≤ hi) &&
      h.is_active && h.id.isSome)

/-- The aggregate statistics row of get_power_distribution; only the
total active-hero count (func.count(Hero.id) over active rows) is needed
by the claims. -/
def powerTotalHeroes (db : List Hero) : Nat :=
  db.countP (fun h => h.is_active && h.id.isSome)

/-- The four fixed buckets reported by get_power_distribution, in source
order: (1,20) Low, (21,50) Medium, (51,80) High, (81,100) Legendary. -/
def powerDistributionBuckets (db : List Hero) : List Nat :=
  [powerBucketCount db 1 20, powerBucketCount db 21 50,
    powerBucketCount db 51 80, powerBucketCount db 81 100]

/-- C6: on any table whose rows carry their primary key and whose active
rows keep power_level inside the schema range 1..100, the four bucket
counts of get_power_distribution sum to the total active-hero count it
reports. -/
theorem power_distribution_buckets_sum (db : List Hero)
    (hid : ∀ h ∈ db, h.id.isSome = true)
    (hpl : ∀ h ∈ db, h.is_active = true →
      1 ≤ h.power_level ∧ h.power_level ≤ 100) :
    (powerDistributionBuckets db).sum = powerTotalHeroes db := by
  induction db with
  | nil => rfl
  | cons x t ih =>
    have hid' : ∀ h ∈ t, h.id.isSome = true :=
      fun h hm => hid h (List.mem_cons_of_mem x hm)
    have hpl' : ∀ h ∈ t, h.is_active = true →
        1 ≤ h.power_level ∧ h.power_level ≤ 100 :=
      fun h hm => hpl h (List.mem_cons_of_mem x hm)
    have IH := ih hid' hpl'
    have hxid : x.id.isSome = true := hid x (List.mem_cons_self x t)
    have hstep : ∀ lo hi : Nat, powerBucketCount (x :: t) lo hi =
        powerBucketCount t lo hi +
          (if decide (lo ≤ x.power_level) && decide (x.power_level ≤ hi) &&
              x.is_active && x.id.isSome then 1 else 0) := by
      intro lo hi
      simp only [powerBucketCount, List.countP_cons]
    have htstep : powerTotalHeroes (x :: t) =
        powerTotalHeroes t + (if x.is_active && x.id.isSome then 1 else 0) := by
      simp only [powerTotalHeroes, List.countP_cons]
    have hind :
        (if decide (1 ≤ x.power_level) && decide (x.power_level ≤ 20) &&
            x.is_active && x.id.isSome then 1 else 0) +
          (if decide (21 ≤ x.power_level) && decide (x.power_level ≤ 50) &&
              x.is_active && x.id.isSome then 1 else 0) +
          (if decide (51 ≤ x.power_level) && decide (x.power_level ≤ 80) &&
              x.is_active && x.id.isSome then 1 else 0) +
          (if decide (81 ≤ x.power_level) && decide (x.power_level ≤ 100) &&
              x.is_active && x.id.isSome then 1 else 0) =
        (if x.is_active && x.id.isSome then 1 else 0) := by
      cases hact : x.is_active with
      | false => simp [hact]
      | true =>
        obtain ⟨hlo, hhi⟩ := hpl x (List.mem_cons_self x t) hact
        simp only [hact, hxid, Bool.and_true, Bool.and_eq_true,
          decide_eq_true_eq]
        split_ifs <;> omega
    simp only [powerDistributionBuckets, List.sum_cons, List.sum_nil,
      Nat.add_zero] at IH ⊢
    rw [hstep, hstep, hstep, hstep, htstep]
    omega

/-- Witness for C6 on a three-row table spanning three buckets, one row
inactive. -/
theorem power_distribution_buckets_sum_witness :
    (powerDistributionBuckets
        [{ id := some 1, created_at := 0, updated_at := none,
           name := "A", secret_name := "a", age := none,
           description := none, power_level := 10, is_active := true,
           avatar_url := none, team := none, abilities := none,
           weakness := none },
         { id := some 2, created_at := 0, updated_at := none,
           name := "B", secret_name := "b", age := none,
           description := none, power_level := 81, is_active := true,
           avatar_url := none, team := none, abilities := none,
           weakness := none },
         { id := some 3, created_at := 0, updated_at := none,
           name := "C", secret_name := "c", age := none,
           description := none, power_level := 50, is_active := false,
           avatar_url := none, team := none, abilities := none,
           weakness := none }]).sum =
      powerTotalHeroes
        [{ id := some 1, created_at := 0, updated_at := none,
           name := "A", secret_name := "a", age := none,
           description := none, power_level := 10, is_active := true,
           avatar_url := none, team := none, abilities := none,
           weakness := none },
         { id := some 2, created_at := 0, updated_at := none,
           name := "B", secret_name := "b", age := none,
           description := none, power_level := 81, is_active := true,
           avatar_url := none, team := none, abilities := none,
           weakness := none },
         { id := some 3, created_at := 0, updated_at := none,
           name := "C", secret_name := "c", age := none,
           description := none, power_level := 50, is_active := false,
           avatar_url := none, team := none, abilities := none,
           weakness := none }] := by
  exact power_distribution_buckets_sum _ (by decide) (by decide)

/-! ### src/api/v1/endpoints/files.py -/

/-- pathlib suffix: on the final path component, take the part from the
last dot, unless that dot is the leading character or the trailing
character (CPython: i = name.rfind(dot); name[i:] when 0 < i <
len(name) - 1, else the empty string). -/
def pathSuffix (filename : String) : String :=
  let name : List Char :=
    (filename.data.reverse.takeWhile (fun c => c ≠ '/')).reverse
  match name.reverse.findIdx? (fun c => c == '.') with
  | none => ""
  | some j =>
    let i := name.length - 1 - j
    if 0 < i ∧ i < name.length - 1 then String.mk (name.drop i) else ""

/-- The ALLOWED_EXTENSIONS table, category by category in source
order. -/
def ALLOWED_EXTENSIONS : List (String × List String) :=
  [("image", [".jpg", ".jpeg", ".png", ".gif", ".bmp", ".webp"]),
    ("document", [".pdf", ".doc", ".docx", ".txt", ".rtf"]),
    ("archive", [".zip", ".rar", ".7z", ".tar", ".gz"]),
    ("video", [".mp4", ".avi", ".mov", ".wmv", ".flv"]),
    ("audio", [".mp3", ".wav", ".flac", ".aac"])]

/-- The flat allow-list built by validate_file (the union of every
category's extension set). -/
def allExtensions : List String :=
  (ALLOWED_EXTENSIONS.map Prod.snd).flatten

/-- The 10MB upload cap. -/
def MAX_FILE_SIZE : Nat := 10 * 1024 * 1024

/-- get_file_type: category of the (lowercased) extension, "other" when
unlisted. -/
def get_file_type (filename : String) : String :=
  let ext := pyLower (pathSuffix filename)
  match ALLOWED_EXTENSIONS.find? (fun p => p.snd.contains ext) with
  | some p => p.fst
  | none => "other"

/-- An uploaded request file: the optional client filename and the byte
content that file.file.read() returns. -/
structure UploadFile where
  filename : Option String
  content : List Nat
deriving Repr, DecidableEq

/-- A file stored in the uploads directory. -/
structure StoredFile where
  filename : String
  content : List Nat
deriving Repr, DecidableEq

/-- validate_file: 400 when the filename is missing or empty, 400 when
the lowercased extension is not in the flat allow-list.  The error value
is the HTTP status of the raised HTTPException. -/
def validate_file (file : UploadFile) : Except Nat Unit :=
  match file.filename with
  | none => Except.error 400
  | some nm =>
    if nm = "" then Except.error 400
    else if allExtensions.contains (pyLower (pathSuffix nm)) then
      Except.ok ()
    else Except.error 400

/-- The metadata dictionary save_file returns (the fields the claims
touch). -/
structure FileInfo where
  file_id : String
  original_name : String
  filename : String
  file_size : Nat
  file_type : String
deriving Repr, DecidableEq

/-- save_file: 413 when the content is larger than MAX_FILE_SIZE
(checked before anything is written); otherwise write the content under
a fresh random identifier plus the original lowercased extension and
return the metadata.  The uuid4 value is passed in as fileId. -/
def save_file (fs : List StoredFile) (fileId : String) (file : UploadFile) :
    Except Nat (FileInfo × List StoredFile) :=
  if file.content.length > MAX_FILE_SIZE then Except.error 413
  else
    let nm := file.filename.getD ""
    let new_filename := fileId ++ pyLower (pathSuffix nm)
    Except.ok
      ({ file_id := fileId, original_name := nm, filename := new_filename,
         file_size := file.content.length, file_type := get_file_type nm },
        fs ++ [{ filename := new_filename, content := file.content }])

/-- upload_single_file: validate, then save; an HTTPException from
either step propagates with its status and nothing is persisted. -/
def upload_single_file (fs : List StoredFile) (fileId : String)
    (file : UploadFile) : ApiResult FileInfo × List StoredFile :=
  match validate_file file with
  | Except.error s => (ApiResult.httpError s, fs)
  | Except.ok _ =>
    match save_file fs fileId file with
    | Except.error s => (ApiResult.httpError s, fs)
    | Except.ok (info, fs') => (ApiResult.ok info, fs')

/-- A file passes the per-file checks of the multi-upload loop exactly
when validate_file accepts it and its content is within the size cap. -/
def fileOk (file : UploadFile) : Bool :=
  (validate_file file).isOk && decide (file.content.length ≤ MAX_FILE_SIZE)

/-- The body of the multi-upload loop: each file is validated and saved
inside its own try/except, so any failure only records the filename in
failed_files and the loop continues.  The uuid supply is modelled by
idGen, advanced once per successful save. -/
def processFiles (idGen : Nat → String) (k : Nat) (fs : List StoredFile) :
    List UploadFile →
      List FileInfo × List (Option String) × List StoredFile
  | [] => ([], [], fs)
  | file :: rest =>
    match validate_file file with
    | Except.error _ =>
      let (u, f, fs') := processFiles idGen k fs rest
      (u, file.filename :: f, fs')
    | Except.ok _ =>
      match save_file fs (idGen k) file with
      | Except.error _ =>
        let (u, f, fs') := processFiles idGen k fs rest
        (u, file.filename :: f, fs')
      | Except.ok (info, fs1) =>
        let (u, f, fs') := processFiles idGen (k + 1) fs1 rest
        (info :: u, f, fs')

/-- upload_multiple_files: reject more than 10 files with 400 before
anything is processed, otherwise run the per-file loop and return the
per-file successes and failures in a 200 envelope. -/
def upload_multiple_files (idGen : Nat → String) (fs : List StoredFile)
    (files : List UploadFile) :
    ApiResult (List FileInfo × List (Option String)) × List StoredFile :=
  if files.length > 10 then (ApiResult.httpError 400, fs)
  else
    let (u, f, fs') := processFiles idGen 0 fs files
    (ApiResult.ok (u, f), fs')

/-- The directory entry save_file writes for an accepted file. -/
def storedOf (fileId : String) (file : UploadFile) : StoredFile :=
  { filename := fileId ++ pyLower (pathSuffix (file.filename.getD "")),
    content := file.content }

/-- The metadata save_file returns for an accepted file. -/
def infoOf (fileId : String) (file : UploadFile) : FileInfo :=
  { file_id := fileId, original_name := file.filename.getD "",
    filename := fileId ++ pyLower (pathSuffix (file.filename.getD "")),
    file_size := file.content.length,
    file_type := get_file_type (file.filename.getD "") }

/-- save_file on an in-cap file appends exactly one directory entry. -/
theorem save_file_ok (fs : List StoredFile) (fileId : String)
    (file : UploadFile) (hsz : file.content.length ≤ MAX_FILE_SIZE) :
    save_file fs fileId file =
      Except.ok (infoOf fileId file, fs ++ [storedOf fileId file]) := by
  simp [save_file, infoOf, storedOf, Nat.not_lt.mpr hsz]

/-- The files the multi-upload loop persists: one stored file per
passing upload, under consecutive generated identifiers. -/
def savedFilesOf (idGen : Nat → String) (k : Nat) :
    List UploadFile → List StoredFile
  | [] => []
  | file :: rest =>
    if fileOk file then
      storedOf (idGen k) file :: savedFilesOf idGen (k + 1) rest
    else savedFilesOf idGen k rest

/-- The per-file loop persists exactly the passing files (appended to
the existing directory), reports one success per passing file and one
failure per failing file. -/
theorem processFiles_spec (idGen : Nat → String) (files : List UploadFile) :
    ∀ (k : Nat) (fs : List StoredFile),
      processFiles idGen k fs files =
        ((processFiles idGen k fs files).1,
          (processFiles idGen k fs files).2.1,
          fs ++ savedFilesOf idGen k files) ∧
      (processFiles idGen k fs files).1.length = files.countP fileOk ∧
      (processFiles idGen k fs files).2.1.length =
        files.countP (fun file => ! fileOk file) := by
  induction files with
  | nil => intro k fs; simp [processFiles, savedFilesOf]
  | cons file rest ih =>
    intro k fs
    cases hvv : validate_file file with
    | error e =>
      have hok : fileOk file = false := by
        simp [fileOk, hvv, Except.isOk, Except.toBool]
      obtain ⟨ihfs, ihu, ihf⟩ := ih k fs
      simp only [processFiles, hvv]
      refine ⟨?_, ?_, ?_⟩
      · rw [ihfs]
        simp [savedFilesOf, hok]
      · simpa [List.countP_cons, hok] using ihu
      · simp [List.countP_cons, hok, ihf]
    | ok u =>
      by_cases hsz : file.content.length ≤ MAX_FILE_SIZE
      · have hok : fileOk file = true := by
          simp [fileOk, hvv, Except.isOk, Except.toBool, hsz]
        have hsave := save_file_ok fs (idGen k) file hsz
        obtain ⟨ihfs, ihu, ihf⟩ := ih (k + 1) (fs ++ [storedOf (idGen k) file])
        simp only [processFiles, hvv, hsave]
        refine ⟨?_, ?_, ?_⟩
        · rw [ihfs]
          simp [savedFilesOf, hok, List.append_assoc]
        · simp [List.countP_cons, hok, ihu]
        · simpa [List.countP_cons, hok] using ihf
      · have hok : fileOk file = false := by
          simp [fileOk, hsz]
        have hsave : save_file fs (idGen k) file = Except.error 413 := by
          simp [save_file, Nat.lt_of_not_le hsz]
        obtain ⟨ihfs, ihu, ihf⟩ := ih k fs
        simp only [processFiles, hvv, hsave]
        refine ⟨?_, ?_, ?_⟩
        · rw [ihfs]
          simp [savedFilesOf, hok]
        · simpa [List.countP_cons, hok] using ihu
        · simp [List.countP_cons, hok, ihf]

/-- C7 counterexample: a single upload that both exceeds 10MB and has a
disallowed extension; validate_file runs before the size check, so the
operation answers 400, not the 413 the claim requires for every over-cap
upload. -/
theorem upload_single_overlap_counterexample :
    (UploadFile.mk (some "payload.exe")
        (List.replicate (MAX_FILE_SIZE + 1) 0)).content.length >
      MAX_FILE_SIZE ∧
    (upload_single_file [] "u0"
        (UploadFile.mk (some "payload.exe")
          (List.replicate (MAX_FILE_SIZE + 1) 0))) =
      (ApiResult.httpError 400, []) ∧
    (ApiResult.httpError 400 : ApiResult FileInfo) ≠
      ApiResult.httpError 413 := by
  refine ⟨?_, rfl, by decide⟩
  simp [List.length_replicate]

/-- C7 (amended): when the filename is present and its extension is in
the allow-list, an upload whose content exceeds 10MB answers 413 and
persists nothing; when the filename is present and its extension is
outside the allow-list, the upload answers 400 and persists nothing
(the extension check runs first, so an upload failing both checks gets
the 400). -/
theorem upload_single_file_spec (fs : List StoredFile) (fid : String)
    (file : UploadFile) (nm : String) (hnm : file.filename = some nm) :
    (allExtensions.contains (pyLower (pathSuffix nm)) = true →
      file.content.length > MAX_FILE_SIZE →
      upload_single_file fs fid file = (ApiResult.httpError 413, fs)) ∧
    (allExtensions.contains (pyLower (pathSuffix nm)) = false →
      upload_single_file fs fid file = (ApiResult.httpError 400, fs)) := by
  constructor
  · intro hext hbig
    have hne : nm ≠ "" := by
      intro h
      rw [h] at hext
      simp [pathSuffix, pyLower, allExtensions, ALLOWED_EXTENSIONS] at hext
    have hmem : pyLower (pathSuffix nm) ∈ allExtensions :=
      List.elem_iff.mp hext
    have hval : validate_file file = Except.ok () := by
      simp [validate_file, hnm, hne, hmem]
    simp [upload_single_file, hval, save_file, hbig]
  · intro hext
    by_cases hne : nm = ""
    · have hval : validate_file file = Except.error 400 := by
        simp [validate_file, hnm, hne]
      simp [upload_single_file, hval]
    · have hnot : pyLower (pathSuffix nm) ∉ allExtensions := by
        intro hm
        have hc : allExtensions.contains (pyLower (pathSuffix nm)) = true :=
          List.elem_iff.mpr hm
        rw [hc] at hext
        simp at hext
      have hval : validate_file file = Except.error 400 := by
        simp [validate_file, hnm, hne, hnot]
      simp [upload_single_file, hval]

/-- Witness for C7 (amended) at an 10MB+1 text file and a small .exe
file. -/
theorem upload_single_file_spec_witness :
    upload_single_file [] "u1"
        (UploadFile.mk (some "notes.txt")
          (List.replicate (MAX_FILE_SIZE + 1) 0)) =
      (ApiResult.httpError 413, []) ∧
    upload_single_file [] "u2" (UploadFile.mk (some "tool.exe") [0, 1]) =
      (ApiResult.httpError 400, []) := by
  constructor
  · exact (upload_single_file_spec [] "u1"
      (UploadFile.mk (some "notes.txt")
        (List.replicate (MAX_FILE_SIZE + 1) 0)) "notes.txt" rfl).1
      (by decide) (by simp [List.length_replicate])
  · exact (upload_single_file_spec [] "u2"
      (UploadFile.mk (some "tool.exe") [0, 1]) "tool.exe" rfl).2 (by decide)

/-- C8: a multi-upload of more than 10 files answers 400 with the
directory untouched; a multi-upload of at most 10 files succeeds as a
batch, persists exactly the files that pass the per-file checks, and
reports one success per passing file and one failure per failing file —
no single bad file fails the batch. -/
theorem upload_multiple_files_spec (idGen : Nat → String)
    (fs : List StoredFile) (files : List UploadFile) :
    (files.length > 10 →
      upload_multiple_files idGen fs files = (ApiResult.httpError 400, fs)) ∧
    (files.length ≤ 10 →
      ∃ u f, upload_multiple_files idGen fs files =
          (ApiResult.ok (u, f), fs ++ savedFilesOf idGen 0 files) ∧
        u.length = files.countP fileOk ∧
        f.length = files.countP (fun file => ! fileOk file)) := by
  constructor
  · intro hlen
    simp [upload_multiple_files, hlen]
  · intro hlen
    obtain ⟨hfs, hu, hf⟩ := processFiles_spec idGen files 0 fs
    refine ⟨(processFiles idGen 0 fs files).1,
      (processFiles idGen 0 fs files).2.1, ?_, hu, hf⟩
    simp only [upload_multiple_files, if_neg (Nat.not_lt.mpr hlen)]
    rw [hfs]

/-- Witness for C8: eleven empty-named files are rejected wholesale; a
two-file batch with one good and one bad file persists exactly the good
one and reports one success and one failure. -/
theorem upload_multiple_files_spec_witness :
    upload_multiple_files (fun _ => "id") []
        (List.replicate 11 (UploadFile.mk (some "a.txt") [7])) =
      (ApiResult.httpError 400, []) ∧
    (∃ u f, upload_multiple_files (fun n => String.mk [Char.ofNat (97 + n)])
          [] [UploadFile.mk (some "a.txt") [7],
            UploadFile.mk (some "b.exe") [8]] =
        (ApiResult.ok (u, f),
          [] ++ savedFilesOf (fun n => String.mk [Char.ofNat (97 + n)]) 0
            [UploadFile.mk (some "a.txt") [7],
              UploadFile.mk (some "b.exe") [8]]) ∧
      u.length = List.countP fileOk
        [UploadFile.mk (some "a.txt") [7], UploadFile.mk (some "b.exe") [8]] ∧
      f.length = List.countP (fun file => ! fileOk file)
        [UploadFile.mk (some "a.txt") [7], UploadFile.mk (some "b.exe") [8]]) := by
  constructor
  · exact (upload_multiple_files_spec (fun _ => "id") []
      (List.replicate 11 (UploadFile.mk (some "a.txt") [7]))).1
      (by simp [List.length_replicate])
  · exact (upload_multiple_files_spec (fun n => String.mk [Char.ofNat (97 + n)])
      [] [UploadFile.mk (some "a.txt") [7],
        UploadFile.mk (some "b.exe") [8]]).2 (by norm_num)

/-! ### download_file and delete_file -/

/-- A stored filename matches the glob pattern of download/delete
(file_id followed by a dot and anything, for identifiers free of glob
metacharacters) exactly when the id plus a dot is a prefix of the
name. -/
def fileMatches (fid : String) (st : StoredFile) : Bool :=
  List.isPrefixOf (fid ++ ".").data st.filename.data

/-- The result of download_file: either the streamed file or the JSON
envelope success_response produces, carrying its HTTP status and whether
the data payload is null. -/
inductive DownloadResult where
  | envelope (status : Nat) (dataIsNull : Bool)
  | fileStream (filename : String)
deriving Repr, DecidableEq

/-- download_file: glob for the id, answer the 200 success envelope with
a null data payload when nothing matches, otherwise stream the first
match. -/
def download_file (fs : List StoredFile) (fid : String) : DownloadResult :=
  match fs.filter (fileMatches fid) with
  | [] => DownloadResult.envelope 200 true
  | f :: _ => DownloadResult.fileStream f.filename

/-- delete_file: glob for the id, answer the 200 success envelope with a
null data payload (and touch nothing) when nothing matches, otherwise
unlink the first match and answer the 200 envelope with the deletion
payload. -/
def delete_file (fs : List StoredFile) (fid : String) :
    DownloadResult × List StoredFile :=
  match fs.filter (fileMatches fid) with
  | [] => (DownloadResult.envelope 200 true, fs)
  | f :: _ =>
    (DownloadResult.envelope 200 false,
      fs.eraseP (fun st => st.filename == f.filename))

/-- C9: for an id matching no stored file, download_file and delete_file
both answer a 200 success envelope with a null data payload (never a
404), and delete_file leaves the upload directory unchanged. -/
theorem files_not_found_envelope (fs : List StoredFile) (fid : String)
    (h : ∀ st ∈ fs, fileMatches fid st = false) :
    download_file fs fid = DownloadResult.envelope 200 true ∧
    delete_file fs fid = (DownloadResult.envelope 200 true, fs) := by
  have hf : fs.filter (fileMatches fid) = [] := by
    rw [List.filter_eq_nil_iff]
    intro a ha
    simp [h a ha]
  constructor
  · simp [download_file, hf]
  · simp [delete_file, hf]

/-- Witness for C9 on a one-file directory and an unmatched id. -/
theorem files_not_found_envelope_witness :
    download_file [StoredFile.mk "abc.txt" [1]] "zzz" =
      DownloadResult.envelope 200 true ∧
    delete_file [StoredFile.mk "abc.txt" [1]] "zzz" =
      (DownloadResult.envelope 200 true, [StoredFile.mk "abc.txt" [1]]) := by
  exact files_not_found_envelope [StoredFile.mk "abc.txt" [1]] "zzz"
    (by decide)

end TemplatePython
